import Mathlib

/-!
Verification of the stream-to-table materializer (`target_postgres`).

This file gives a shallow embedding, in Lean 4, of the parts of the
repository that the frozen claims C1-C10 are about:

* `src/target_postgres/db_sync.py`: the pure projector functions
  (`column_type`, `inflect_column_name`, `flatten_key`, `flatten_schema`,
  `flatten_record`, `primary_column_names`, `column_clause`) and the SQL
  text generators of the `DbSync` class (`table_name`,
  `create_table_query`, `insert_from_temp_table`, `update_from_temp_table`,
  `primary_key_condition`, `primary_key_null_condition`, `drop_temp_table`,
  and the statement sequence executed by `load_csv`).
* `src/target_postgres/__init__.py`: the driver loop `persist_lines`,
  `flush_records` and `emit_state`.

Python values parsed from JSON lines are modelled by the inductive type
`Jsn` (JSON null maps to Python `None`; JSON numbers are modelled by `Int`,
which covers every number the claims exercise; floating point is out of
scope).  Fallible Python code (KeyError, TypeError, AttributeError,
`raise`) is modelled with `Except String`.  Recursive walks over `Jsn`
use an explicit fuel argument standing for CPython's recursion limit
(1000), so that every definition is structurally recursive and
executable by kernel reduction.  Database round-trips
(`create_schema_if_not_exists`, `sync_table`, the `load_csv` connection)
are external collaborators: the embedding models the SQL text they
execute, not the server.
-/

/-- A parsed JSON value, as produced by `json.loads` on an input line.
JSON `null` corresponds to Python `None`.  Numbers are modelled by `Int`
(the claims only exercise integral numbers).  Object fields keep their
insertion order and have pairwise distinct keys, matching a Python dict. -/
inductive Jsn where
  | null : Jsn
  | bool : Bool → Jsn
  | num : Int → Jsn
  | str : String → Jsn
  | arr : List Jsn → Jsn
  | obj : List (String × Jsn) → Jsn

/-- Python truthiness test `not o` used by the driver on `o['record']`:
`None`, `False`, `0`, `''`, `[]` and an empty dict are falsy. -/
def jsnFalsy : Jsn → Bool
  | Jsn.null => true
  | Jsn.bool b => !b
  | Jsn.num n => n == 0
  | Jsn.str s => s.isEmpty
  | Jsn.arr l => l.isEmpty
  | Jsn.obj l => l.isEmpty

/-- First-match association-list lookup (a Python dict has distinct keys,
so the first match is the only one). -/
def lookupAssoc {α : Type} : List (String × α) → String → Option α
  | [], _ => none
  | (k, v) :: rest, key => if k = key then some v else lookupAssoc rest key

/-- Dict update `d[k] = v`: replaces the value in place if the key exists
(keeping the key's original position), appends otherwise.  This is exactly
the insertion-order semantics of a Python dict. -/
def updateAssoc {α : Type} : List (String × α) → String → α → List (String × α)
  | [], key, v => [(key, v)]
  | (k, w) :: rest, key, v =>
    if k = key then (k, v) :: rest else (k, w) :: updateAssoc rest key v

/-- `dict(items)` on a list of pairs: later pairs override earlier values
while the key keeps its first position, matching Python. -/
def pyDict {α : Type} (items : List (String × α)) : List (String × α) :=
  items.foldl (fun acc kv => updateAssoc acc kv.1 kv.2) []

/-- Substring test on character lists, the semantics of Python `sub in s`
for strings. -/
def subInChars (sub : List Char) : List Char → Bool
  | [] => sub.isEmpty
  | c :: rest => sub.isPrefixOf (c :: rest) || subInChars sub rest

/-- Python `sub in s` for strings: substring containment. -/
def strContainsSub (s sub : String) : Bool :=
  subInChars sub.data s.data

/-- Python `x == v` for a string literal `x` against a parsed value:
true exactly when `v` is the equal string (Python `==` across types is
`False`, never an error). -/
def pyEqStr (x : String) : Jsn → Bool
  | Jsn.str s => s == x
  | _ => false

/-- Python `x in c` as used by `column_type` and `flatten_schema` on the
value of a `type` field: substring test on a string, elementwise `==`
membership on a list, key membership on a dict, `TypeError` on anything
else. -/
def pyIn (x : String) : Jsn → Except String Bool
  | Jsn.str s => Except.ok (strContainsSub s x)
  | Jsn.arr l => Except.ok (l.any (pyEqStr x))
  | Jsn.obj l => Except.ok (l.any (fun kv => kv.1 == x))
  | _ => Except.error "TypeError: argument of type is not iterable"

/-- Python `d[k]` on a dict, raising `KeyError` when absent and
`TypeError` when `d` is not a dict. -/
def pyGetItem (d : Jsn) (key : String) : Except String Jsn :=
  match d with
  | Jsn.obj fields =>
    match lookupAssoc fields key with
    | some v => Except.ok v
    | none => Except.error ("KeyError: " ++ key)
  | _ => Except.error "TypeError: value is not subscriptable"

/-- Python `k in d` / conditional lookup `d[k] if k in d else None`. -/
def pyLookup (d : Jsn) (key : String) : Option Jsn :=
  match d with
  | Jsn.obj fields => lookupAssoc fields key
  | _ => none

/-! ## The `inflection` library functions used by the source

`inflection.camelize(s)` is `re.sub(r"(?:^|_)(.)", lambda m: m.group(1).upper(), s)`
and `inflection.underscore(s)` is
`re.sub(r"([A-Z]+)([A-Z][a-z])", r"\1_\2", s)` followed by
`re.sub(r"([a-z\d])([A-Z])", r"\1_\2", s)`, then `replace("-", "_")` and
`.lower()`.  Both regex passes only ever insert an underscore between two
adjacent characters of the original string, so their composition is the
single left-to-right pass implemented below. -/

/-- The character walk of `inflection.camelize`: at the start of the
string, or after an underscore (which is consumed), the next character is
uppercased. -/
def camelizeChars : Bool → List Char → List Char
  | _, [] => []
  | true, c :: rest => c.toUpper :: camelizeChars false rest
  | false, c :: rest =>
    if c = '_' then
      match rest with
      | [] => ['_']
      | d :: rest2 => d.toUpper :: camelizeChars false rest2
    else c :: camelizeChars false rest

/-- `inflection.camelize` with its default `uppercase_first_letter=True`. -/
def camelize (s : String) : String :=
  String.mk (camelizeChars true s.data)

/-- ASCII lowercase test, the regex class `[a-z]`. -/
def isAsciiLower (c : Char) : Bool :=
  'a' ≤ c && c ≤ 'z'

/-- ASCII uppercase test, the regex class `[A-Z]`. -/
def isAsciiUpper (c : Char) : Bool :=
  'A' ≤ c && c ≤ 'Z'

/-- ASCII digit test, the regex class `\d` (Python's `\d` on `str` also
matches some unicode digits; the source never feeds those). -/
def isAsciiDigit (c : Char) : Bool :=
  '0' ≤ c && c ≤ '9'

/-- The underscore-insertion pass of `inflection.underscore`: an
underscore is inserted between a lowercase letter or digit and an
uppercase letter, and between two uppercase letters when the second is
followed by a lowercase letter. -/
def underscoreInsert : List Char → List Char
  | [] => []
  | [c] => [c]
  | a :: b :: rest =>
    if isAsciiUpper b && (isAsciiLower a || isAsciiDigit a) then
      a :: '_' :: underscoreInsert (b :: rest)
    else if isAsciiUpper a && isAsciiUpper b &&
        (match rest with | c :: _ => isAsciiLower c | [] => false) then
      a :: '_' :: underscoreInsert (b :: rest)
    else
      a :: underscoreInsert (b :: rest)

/-- `inflection.underscore`. -/
def underscore (s : String) : String :=
  String.mk (((underscoreInsert s.data).map
    (fun c => if c = '-' then '_' else c)).map Char.toLower)

/-- Fueled worker for Python `str.replace`: leftmost non-overlapping
occurrences of `pat` are replaced by `repl`, continuing after each
replacement.  Each step consumes at least one character, so a fuel of the
string's length suffices. -/
def replaceCharsF (pat repl : List Char) : Nat → List Char → List Char
  | 0, l => l
  | _ + 1, [] => []
  | f + 1, c :: rest =>
    if pat.isPrefixOf (c :: rest) && !pat.isEmpty then
      repl ++ replaceCharsF pat repl f ((c :: rest).drop pat.length)
    else c :: replaceCharsF pat repl f rest

/-- Python `s.replace(pat, repl)` (the source only ever replaces
non-empty patterns). -/
def pyReplace (s pat repl : String) : String :=
  String.mk (replaceCharsF pat.data repl.data s.data.length s.data)

/-! ## Projector functions of `db_sync.py` -/

/-- `db_sync.inflect_column_name`: snake-case the name and apply the
domain-specific abbreviations, in source order. -/
def inflect_column_name (name : String) : String :=
  pyReplace (pyReplace (pyReplace (pyReplace (pyReplace (underscore name)
    "properties" "props") "timestamp" "ts") "date" "dt") "from" "from_col")
    "associated" "assoc"

/-- `db_sync.flatten_key`: keys whose concatenation with the parent prefix
exceeds 40 characters are reduced to the consonant-stripped CamelCase
abbreviation (first three characters if that strip leaves at most one
character), then the inflected key is appended to the parent with the
separator. -/
def flatten_key (k parentKey sep : String) : String :=
  let k :=
    if (parentKey ++ k).length > 40 then
      let reducedKey := String.mk ((camelize k).data.filter (fun c => !isAsciiLower c))
      if reducedKey.length > 1 then reducedKey else String.mk (k.data.take 3)
    else k
  if parentKey ≠ "" then parentKey ++ sep ++ inflect_column_name k
  else inflect_column_name k

/-- `db_sync.column_type`: the source's SQL type resolution.  Note the
returned spellings are exactly the source's literals (`JSONB`,
`timestamp`, `decimal`, `bigint`, `bool`, `varchar`) and that the
membership tests run in source order: `object`/`array`, then the
`date-time` format, then `number`, `integer`, `boolean`, default
`varchar`. -/
def column_type (schemaProperty : Jsn) : Except String String := do
  let propertyType ← pyGetItem schemaProperty "type"
  let propertyFormat := pyLookup schemaProperty "format"
  let hasObject ← pyIn "object" propertyType
  let hasArray ← pyIn "array" propertyType
  if hasObject || hasArray then
    Except.ok "JSONB"
  else if (match propertyFormat with
      | some v => pyEqStr "date-time" v
      | none => false) then
    Except.ok "timestamp"
  else do
    let hasNumber ← pyIn "number" propertyType
    if hasNumber then Except.ok "decimal"
    else do
      let hasInteger ← pyIn "integer" propertyType
      if hasInteger then Except.ok "bigint"
      else do
        let hasBoolean ← pyIn "boolean" propertyType
        if hasBoolean then Except.ok "bool" else Except.ok "varchar"

/-- `db_sync.column_clause`. -/
def column_clause (name : String) (schemaProperty : Jsn) : Except String String := do
  let t ← column_type schemaProperty
  Except.ok (name ++ " " ++ t)

/-- `db_sync.primary_column_names`. -/
def primary_column_names (keyProperties : List String) : List String :=
  keyProperties.map inflect_column_name

/-! ## `json.dumps` and `str` on parsed values -/

/-- JSON string escaping as performed by `json.dumps` (the claims only
exercise printable ASCII content; other control characters never occur in
the inputs considered). -/
def pyEscapeChar (c : Char) : String :=
  if c = '\\' then "\\\\"
  else if c = '"' then "\\\""
  else if c = '\n' then "\\n"
  else if c = '\t' then "\\t"
  else if c = '\r' then "\\r"
  else String.singleton c

/-- Fueled worker for `json.dumps` with Python's default separators. -/
def pyDumpsF (fuel : Nat) (v : Jsn) : String :=
  match fuel, v with
  | 0, _ => ""
  | _ + 1, Jsn.null => "null"
  | _ + 1, Jsn.bool true => "true"
  | _ + 1, Jsn.bool false => "false"
  | _ + 1, Jsn.num n => toString n
  | _ + 1, Jsn.str s => "\"" ++ String.join (s.data.map pyEscapeChar) ++ "\""
  | f + 1, Jsn.arr l => "[" ++ String.intercalate ", " (l.map (pyDumpsF f)) ++ "]"
  | f + 1, Jsn.obj l =>
    "\x7b" ++
      String.intercalate ", "
        (l.map (fun kv => pyDumpsF f (Jsn.str kv.1) ++ ": " ++ pyDumpsF f kv.2)) ++
      "\x7d"

/-- `json.dumps` with default separators (`', '` and `': '`).  The fuel
1000 models CPython's recursion limit; every value the claims exercise is
nested far more shallowly. -/
def pyDumps (v : Jsn) : String :=
  pyDumpsF 1000 v

/-- Python `str()` of a parsed value (scalars as Python prints them;
containers approximated by their JSON encoding, which no claim
exercises). -/
def pyStr : Jsn → String
  | Jsn.null => "None"
  | Jsn.bool true => "True"
  | Jsn.bool false => "False"
  | Jsn.num n => toString n
  | Jsn.str s => s
  | v => pyDumps v

/-! ## `db_sync.flatten_record` (the source version)

`flatten_record(d, parent_key='', sep='__')` iterates `d.items()` -- so a
non-dict argument raises `AttributeError` -- recursing into dict values
(emitting only the children), JSON-encoding list values, and emitting
every other value as-is; the collected pairs are returned as `dict(items)`.
The explicit fuel models CPython's recursion limit (`sys.getrecursionlimit()`
defaults to 1000); no input of interest comes anywhere near it. -/

/-- CPython's default recursion limit, used as fuel for the recursive
walks of the source. -/
def pyRecursionLimit : Nat := 1000

/-- `db_sync.flatten_record`, fueled.  A non-dict argument raises
`AttributeError` exactly as `d.items()` does in the source; the
`for k, v in d.items()` loop is the fold. -/
def flattenRecordF : Nat → Jsn → String → String → Except String (List (String × Jsn))
  | 0, _, _, _ => Except.error "RecursionError: maximum recursion depth exceeded"
  | f + 1, Jsn.obj fields, parentKey, sep =>
    pyDict <$> fields.foldlM
      (fun acc kv => do
        let newKey := flatten_key kv.1 parentKey sep
        let here ←
          match kv.2 with
          | Jsn.obj sub => flattenRecordF f (Jsn.obj sub) newKey sep
          | Jsn.arr l => Except.ok [(newKey, Jsn.str (pyDumps (Jsn.arr l)))]
          | w => Except.ok [(newKey, w)]
        Except.ok (acc ++ here))
      []
  | _ + 1, _, _, _ => Except.error "AttributeError: object has no attribute items"

/-- `db_sync.flatten_record` at its default arguments. -/
def flatten_record (d : Jsn) : Except String (List (String × Jsn)) :=
  flattenRecordF pyRecursionLimit d "" "__"

/-! ## `db_sync.flatten_schema` (the source version) -/

/-- Code-point lexicographic `≤` on strings, the comparison Python uses
for `sorted` on `str` keys. -/
def charListLe : List Char → List Char → Bool
  | [], _ => true
  | _ :: _, [] => false
  | a :: as, b :: bs =>
    if a.val < b.val then true
    else if b.val < a.val then false
    else charListLe as bs

/-- Insertion step of a sort by key.  The keys being sorted are pairwise
distinct whenever the sort's result is used, so tie order is
immaterial. -/
def insertByKey (p : String × Jsn) : List (String × Jsn) → List (String × Jsn)
  | [] => [p]
  | q :: rest => if charListLe q.1.data p.1.data then q :: insertByKey p rest else p :: q :: rest

/-- `sorted(items, key=lambda item: item[0])`. -/
def sortByKey : List (String × Jsn) → List (String × Jsn)
  | [] => []
  | p :: rest => insertByKey p (sortByKey rest)

/-- The `itertools.groupby` duplicate scan of `flatten_schema`: on a
sorted list, the first key occurring twice (necessarily adjacently). -/
def firstAdjacentDup : List (String × Jsn) → Option String
  | (a, _) :: (b, w) :: rest =>
    if a = b then some a else firstAdjacentDup ((b, w) :: rest)
  | _ => none

/-- `db_sync.flatten_schema`, fueled: walk `d['properties']`, recurse
through properties whose `type` contains `object`, sort the collected
items by key, and raise `ValueError` on a duplicate flattened name. -/
def flattenSchemaF : Nat → Jsn → String → String → Except String (List (String × Jsn))
  | 0, _, _, _ => Except.error "RecursionError: maximum recursion depth exceeded"
  | f + 1, d, parentKey, sep => do
    let props ← pyGetItem d "properties"
    let fields ←
      match props with
      | Jsn.obj l => Except.ok l
      | _ => Except.error "AttributeError: object has no attribute items"
    let items ← fields.foldlM
      (fun acc kv => do
        let newKey := flatten_key kv.1 parentKey sep
        let tv ← pyGetItem kv.2 "type"
        let isObj ← pyIn "object" tv
        let here ←
          if isObj then flattenSchemaF f kv.2 newKey sep
          else Except.ok [(newKey, kv.2)]
        Except.ok (acc ++ here))
      []
    let sortedItems := sortByKey items
    match firstAdjacentDup sortedItems with
    | some k => Except.error ("ValueError: Duplicate column name produced in schema: " ++ k)
    | none => Except.ok (pyDict sortedItems)

/-- `db_sync.flatten_schema` at its default arguments. -/
def flatten_schema (d : Jsn) : Except String (List (String × Jsn)) :=
  flattenSchemaF pyRecursionLimit d "" "__"

/-! ## The `DbSync` class of `db_sync.py`

`DbSync.__init__` stores the connection config (of which only
`config['schema']` matters to the SQL text), the stream schema message
(of which `stream` and `key_properties` matter), and the flattened schema
computed by `flatten_schema(stream_schema_message['schema'])`. -/

structure DbSync where
  schemaName : String
  stream : String
  keyProperties : List String
  flattenedSchema : List (String × Jsn)

/-- `DbSync.__init__`: compute and store the flattened schema (which can
raise, e.g. on a duplicate flattened column name). -/
def DbSync.init (schemaName stream : String) (keyProperties : List String)
    (schema : Jsn) : Except String DbSync := do
  let flat ← flatten_schema schema
  Except.ok ⟨schemaName, stream, keyProperties, flat⟩

/-- `DbSync.table_name`: `{table}_temp` for a temporary table, otherwise
`{schema}.{table}`.  The argument is used verbatim -- no inflection. -/
def DbSync.table_name (self : DbSync) (tableName : String) (isTemporary : Bool) : String :=
  if isTemporary then tableName ++ "_temp"
  else self.schemaName ++ "." ++ tableName

/-- `DbSync.column_names`. -/
def DbSync.column_names (self : DbSync) : List String :=
  self.flattenedSchema.map Prod.fst

/-- `DbSync.record_to_csv_line` (the only record-serialising method the
class defines): one comma-joined field per flattened-schema column, the
JSON encoding of the flattened record's value when present and truthy,
empty otherwise. -/
def DbSync.record_to_csv_line (self : DbSync) (record : Jsn) : Except String String := do
  let flat ← flatten_record record
  Except.ok (String.intercalate ","
    (self.flattenedSchema.map (fun p =>
      match lookupAssoc flat p.1 with
      | some v => if jsnFalsy v then "" else pyDumps v
      | none => "")))

/-- `DbSync.create_table_query`: column clauses in flattened-schema order
followed by a `PRIMARY KEY (...)` clause whenever `key_properties` is
non-empty -- for temporary and permanent tables alike. -/
def DbSync.create_table_query (self : DbSync) (isTemporary : Bool) : Except String String := do
  let columns ← self.flattenedSchema.mapM (fun p => column_clause p.1 p.2)
  let primaryKey :=
    if self.keyProperties.length != 0 then
      ["PRIMARY KEY (" ++ String.intercalate ", " (primary_column_names self.keyProperties) ++ ")"]
    else []
  Except.ok ("CREATE " ++ (if isTemporary then "TEMP " else "") ++ "TABLE " ++
    self.table_name self.stream isTemporary ++ " (" ++
    String.intercalate ", " (columns ++ primaryKey) ++ ")")

/-- `DbSync.primary_key_condition`. -/
def DbSync.primary_key_condition (self : DbSync) (rightTable : String) : String :=
  String.intercalate " AND "
    ((primary_column_names self.keyProperties).map
      (fun c => "s." ++ c ++ " = " ++ rightTable ++ "." ++ c))

/-- `DbSync.primary_key_null_condition`. -/
def DbSync.primary_key_null_condition (self : DbSync) (rightTable : String) : String :=
  String.intercalate " AND "
    ((primary_column_names self.keyProperties).map
      (fun c => rightTable ++ "." ++ c ++ " is null"))

/-- `DbSync.insert_from_temp_table`, whitespace exactly as in the
source's triple-quoted template. -/
def DbSync.insert_from_temp_table (self : DbSync) : String :=
  let columns := self.column_names
  let table := self.table_name self.stream false
  let tempTable := self.table_name self.stream true
  "INSERT INTO " ++ table ++ " (" ++ String.intercalate ", " columns ++
    ") \n        (SELECT s.* FROM " ++ tempTable ++ " s LEFT OUTER JOIN " ++ table ++
    " t ON " ++ self.primary_key_condition "t" ++ " WHERE " ++
    self.primary_key_null_condition "t" ++ ")\n        "

/-- `DbSync.update_from_temp_table`, whitespace exactly as in the
source's triple-quoted template. -/
def DbSync.update_from_temp_table (self : DbSync) : String :=
  let columns := self.column_names
  let table := self.table_name self.stream false
  let tempTable := self.table_name self.stream true
  "UPDATE " ++ table ++ " SET " ++
    String.intercalate ", " (columns.map (fun c => c ++ "=s." ++ c)) ++
    " FROM " ++ tempTable ++ " s \n        WHERE " ++
    self.primary_key_condition table ++ "\n        "

/-- `DbSync.drop_temp_table`. -/
def DbSync.drop_temp_table (self : DbSync) : String :=
  "DROP TABLE " ++ self.table_name self.stream true

/-- The SQL statements `DbSync.load_csv` executes on its single
connection, in source order: `CREATE TEMP TABLE`, the `COPY ... FROM
STDIN` fed from the rewound batch file, `UPDATE`, `INSERT`, `DROP` --
unconditionally, with no case split on `key_properties`. -/
def DbSync.load_csv_statements (self : DbSync) : Except String (List String) := do
  let createTemp ← self.create_table_query true
  Except.ok [createTemp,
    "COPY " ++ self.table_name self.stream true ++ " (" ++
      String.intercalate ", " self.column_names ++
      ") FROM STDIN WITH (FORMAT CSV, ESCAPE '\\')",
    self.update_from_temp_table,
    self.insert_from_temp_table,
    self.drop_temp_table]

/-! ## Attribute lookup on `DbSync` (claim C1) -/

/-- The method names defined in the body of `class DbSync` in
`db_sync.py`, in source order.  Python resolves `sync.<name>` by looking
the name up on the instance and its class; a miss raises
`AttributeError`. -/
def dbSyncMethodNames : List String :=
  ["__init__", "open_connection", "query", "copy_from", "table_name",
   "record_to_csv_line", "load_csv", "insert_from_temp_table",
   "update_from_temp_table", "primary_key_condition",
   "primary_key_null_condition", "drop_temp_table", "column_names",
   "create_table_query", "create_schema_if_not_exists", "get_tables",
   "get_table_columns", "update_columns", "sync_table"]

/-- The RECORD branch of `persist_lines` (`__init__.py` lines 75-110) as
it actually executes against the `DbSync` class of `db_sync.py`: after
the record-before-schema check (line 78), validation (external), and the
empty-record skip (line 89), line 95 resolves the attribute
`record_primary_key_string`, and the append on line 102 resolves
`record_to_csv_row`; a missing attribute raises `AttributeError` at that
point and nothing is appended to the batch buffer. -/
def processRecordActual (streamRegistered : Bool) (record : Jsn) : Except String Unit :=
  if !streamRegistered then
    Except.error "A record for stream was encountered before a corresponding schema"
  else if jsnFalsy record then
    Except.ok ()
  else if !(dbSyncMethodNames.contains "record_primary_key_string") then
    Except.error "AttributeError: DbSync object has no attribute record_primary_key_string"
  else if !(dbSyncMethodNames.contains "record_to_csv_row") then
    Except.error "AttributeError: DbSync object has no attribute record_to_csv_row"
  else
    Except.ok ()

/-! ## Spec-modelled record fingerprinting

The driver's RECORD branch invokes `DbSync.record_primary_key_string` and
`DbSync.record_to_csv_row`, and the repository's tests exercise both, but
`db_sync.py` defines neither (claim C1).  To analyse the driver's
buffering logic at all, the missing methods are modelled from the spec
here; the batch buffer keeps the record itself in place of its CSV row,
which is faithful for every claim about fingerprints and row counts. -/

/-- Modelled from the spec: the record-flattening behaviour that
`record_primary_key_string` needs, absent from `db_sync.py`.  Spec 4.1:
"`flatten_record(record)`: dict-valued fields recurse; list- or
tuple-valued fields are JSON-encoded at their own column; scalar values
are emitted as-is.  Non-mapping inputs (including null, string, empty
list) yield an empty mapping.  Both the intermediate dict value AND its
children are emitted."  The intermediate entry carries the dict's JSON
encoding (the repository's own tests pin that choice). -/
def flattenRecordSpecF : Nat → Jsn → String → String → List (String × Jsn)
  | 0, _, _, _ => []
  | f + 1, Jsn.obj fields, parentKey, sep =>
    pyDict (fields.foldl
      (fun acc kv =>
        let newKey := flatten_key kv.1 parentKey sep
        let here :=
          match kv.2 with
          | Jsn.obj sub =>
            (newKey, Jsn.str (pyDumps (Jsn.obj sub))) ::
              flattenRecordSpecF f (Jsn.obj sub) newKey sep
          | Jsn.arr l => [(newKey, Jsn.str (pyDumps (Jsn.arr l)))]
          | w => [(newKey, w)]
        acc ++ here)
      [])
  | _ + 1, _, _, _ => []

/-- Modelled from the spec: `DbSync.record_primary_key_string` is invoked
by the driver (`__init__.py` line 95) and exercised by the repository's
tests, but `db_sync.py` does not define it (claim C1).  Spec 3, batch
buffer: "A fingerprint is the comma-joined string of stringified
primary-key values in declared order; absent when `key_properties` is
empty or any key value is missing", the primary-key columns being the
inflected forms of `key_properties` (spec 3, projected schema
invariants) looked up in the flattened record. -/
def record_primary_key_string (keyProperties : List String) (record : Jsn) : Option String :=
  if keyProperties.isEmpty then none
  else
    let flat := flattenRecordSpecF pyRecursionLimit record "" "__"
    let vals := keyProperties.map (fun k => lookupAssoc flat (inflect_column_name k))
    if vals.all Option.isSome then
      some (String.intercalate "," (vals.map (fun v => pyStr (v.getD Jsn.null))))
    else none

/-! ## The driver loop of `__init__.py`

`persist_lines` is modelled at the message level: each already-parsed,
well-typed input line is one `Msg`.  (JSON parse errors, missing `type`
or `stream` fields and unknown types are fatal before any state changes
and are orthogonal to the claims.)  Draft-4 validation is an external
library call and is modelled as passing; a validation failure would only
truncate the run. -/

/-- One parsed input message. -/
inductive Msg where
  | schema (stream : String) (schemaJson : Jsn) (keyProperties : List String)
  | record (stream : String) (recordJson : Jsn)
  | state (value : Jsn)
  | activateVersion

/-- The per-stream registration state of `persist_lines`: the stream's
`DbSync` data needed by the claims (`key_properties`, flattened schema),
the open batch buffer (`csv_files_to_load`, rows kept as the records
written to it), `row_count`, and the fingerprint set
`primary_key_exists[stream]` (a Python dict used as a set). -/
structure StreamState where
  keyProperties : List String
  flattenedSchema : List (String × Jsn)
  rows : List Jsn
  rowCount : Nat
  seen : List String

/-- One batch handed to `DbSync.load_csv`: the stream it belongs to, the
stream's `key_properties`, and the buffered rows. -/
structure Batch where
  stream : String
  keyProperties : List String
  rows : List Jsn

/-- The driver state threaded through the message loop: the cached STATE
(Python `None` is `Jsn.null`), the registered streams in registration
order, and the batches flushed so far in flush order. -/
structure DriverState where
  state : Jsn
  streams : List (String × StreamState)
  flushed : List Batch

/-- `__init__.flush_records`: hand the current buffer to
`DbSync.load_csv`, reset `row_count[stream]` to 0, clear
`primary_key_exists[stream]`, and open a fresh buffer. -/
def flush_records (stream : String) (ss : StreamState) (flushed : List Batch) :
    StreamState × List Batch :=
  ({ ss with rows := [], rowCount := 0, seen := [] },
   flushed ++ [⟨stream, ss.keyProperties, ss.rows⟩])

/-- `primary_key_string is not None and primary_key_string in
primary_key_exists[stream]` (line 98): whether a present fingerprint is
already in the stream's seen-set. -/
def isDupFingerprint (pk : Option String) (seen : List String) : Bool :=
  match pk with
  | some s => decide (s ∈ seen)
  | none => false

/-- Lines 101-105 of `persist_lines`: write the row into the stream's
buffer (the record stands for its CSV row), bump `row_count`, and record
the fingerprint in the seen-set when it is present.  (`key_properties`
is fixed at registration, so the fingerprint equals the one line 95
computed before any duplicate-triggered flush.) -/
def appendRow (record : Jsn) (ss1 : StreamState) : StreamState :=
  { ss1 with
    rows := ss1.rows ++ [record],
    rowCount := ss1.rowCount + 1,
    seen :=
      match record_primary_key_string ss1.keyProperties record with
      | some s => ss1.seen ++ [s]
      | none => ss1.seen }

/-- Lines 95-108 of `persist_lines`, for a registered stream and a
non-falsy record: compute the fingerprint; if it is present and already
seen, flush first; append the row; flush again when `row_count` reaches
`batch_size`; reset the cached STATE to `None` (line 110). -/
def recordAppendStep (batchSize : Nat) (stream : String) (record : Jsn)
    (ss : StreamState) (st : DriverState) : DriverState :=
  let pk := record_primary_key_string ss.keyProperties record
  let dup := isDupFingerprint pk ss.seen
  let ss1 := if dup then (flush_records stream ss st.flushed).1 else ss
  let fl1 := if dup then (flush_records stream ss st.flushed).2 else st.flushed
  let ss2 := appendRow record ss1
  let ss3 := if ss2.rowCount ≥ batchSize then (flush_records stream ss2 fl1).1 else ss2
  let fl2 := if ss2.rowCount ≥ batchSize then (flush_records stream ss2 fl1).2 else fl1
  { state := Jsn.null, streams := updateAssoc st.streams stream ss3, flushed := fl2 }

/-- One iteration of the `for line in lines` loop of `persist_lines`.
SCHEMA: register the stream on first sight (running `DbSync.__init__`,
whose `flatten_schema` can raise), ignore repeats.  RECORD: fatal if the
stream is unregistered; skip (leaving all state, including the cached
STATE, untouched) if the record payload is falsy; otherwise run
`recordAppendStep`.  STATE: cache the value.  ACTIVATE_VERSION: log
only. -/
def stepMsg (batchSize : Nat) (st : DriverState) (m : Msg) : Except String DriverState :=
  match m with
  | Msg.schema stream schemaJson keyProps =>
    match lookupAssoc st.streams stream with
    | some _ => Except.ok st
    | none => do
      let flat ← flatten_schema schemaJson
      Except.ok { st with streams := updateAssoc st.streams stream ⟨keyProps, flat, [], 0, []⟩ }
  | Msg.record stream record =>
    match lookupAssoc st.streams stream with
    | none =>
      Except.error ("A record for stream " ++ stream ++
        " was encountered before a corresponding schema")
    | some ss =>
      if jsnFalsy record then Except.ok st
      else Except.ok (recordAppendStep batchSize stream record ss st)
  | Msg.state v => Except.ok { st with state := v }
  | Msg.activateVersion => Except.ok st

/-- `persist_lines` over the parsed input messages, starting from no
cached state, no registered streams, and nothing flushed. -/
def persist_lines (batchSize : Nat) (msgs : List Msg) : Except String DriverState :=
  msgs.foldlM (stepMsg batchSize) ⟨Jsn.null, [], []⟩

/-- The end-of-input drain (`persist_lines` lines 140-142) appended to
the batches flushed during the run: every stream whose `row_count` is
non-zero hands its current buffer to `load_csv`, in registration order. -/
def finalBatches (st : DriverState) : List Batch :=
  st.flushed ++ st.streams.filterMap
    (fun p => if p.2.rowCount > 0 then some ⟨p.1, p.2.keyProperties, p.2.rows⟩ else none)

/-- `__init__.emit_state`, applied by `main` to `persist_lines`' return
value: the lines written to stdout -- `json.dumps(state)` plus a newline,
unless the state is Python `None` (JSON `null`). -/
def emit_state : Jsn → List String
  | Jsn.null => []
  | v => [pyDumps v ++ "\n"]

/-! ## Concrete fixtures for the claim theorems -/

/-- A small SCHEMA payload used by the concrete theorems: properties
`id` (type `['integer']`) and `name` (type `['string']`). -/
def testSchemaJson : Jsn :=
  Jsn.obj [("properties", Jsn.obj
    [("id", Jsn.obj [("type", Jsn.arr [Jsn.str "integer"])]),
     ("name", Jsn.obj [("type", Jsn.arr [Jsn.str "string"])])])]

/-- The `DbSync` that `DbSync.__init__` builds for stream `tests` with
`key_properties = ['id']` under configured schema `test_schema`. -/
def dbsyncKeyed : DbSync :=
  ⟨"test_schema", "tests", ["id"],
   [("id", Jsn.obj [("type", Jsn.arr [Jsn.str "integer"])]),
    ("name", Jsn.obj [("type", Jsn.arr [Jsn.str "string"])])]⟩

/-- The same `DbSync` with empty `key_properties`. -/
def dbsyncNoKeys : DbSync :=
  ⟨"test_schema", "tests", [],
   [("id", Jsn.obj [("type", Jsn.arr [Jsn.str "integer"])]),
    ("name", Jsn.obj [("type", Jsn.arr [Jsn.str "string"])])]⟩

/-- The six SQL type names claim C5 (and the repository's own
`tests.py::test_column_type`) says `column_type` returns. -/
def claimedSqlTypes : List String :=
  ["jsonb", "timestamp with time zone", "numeric", "bigint", "boolean",
   "character varying"]

/-! ## Batch deduplication invariant (claim C8) -/

/-- The present fingerprints of a batch's rows, in row order. -/
def batchFingerprints (b : Batch) : List String :=
  b.rows.filterMap (record_primary_key_string b.keyProperties)

/-- The present fingerprints of a stream's open buffer, in row order. -/
def streamFingerprints (ss : StreamState) : List String :=
  ss.rows.filterMap (record_primary_key_string ss.keyProperties)

/-- Invariant of one stream's buffer: every present fingerprint of a
buffered row is in the seen-set, and the buffered fingerprints are
pairwise distinct. -/
def streamInv (ss : StreamState) : Prop :=
  (∀ s ∈ streamFingerprints ss, s ∈ ss.seen) ∧ (streamFingerprints ss).Nodup

/-- Invariant of the driver state: every registered stream's buffer
satisfies `streamInv` and every flushed batch has pairwise distinct
present fingerprints. -/
def driverInv (st : DriverState) : Prop :=
  (∀ p ∈ st.streams, streamInv p.2) ∧ ∀ b ∈ st.flushed, (batchFingerprints b).Nodup


/-- The input of the C8 witness: one SCHEMA for stream `t` keyed on
`id`, then records with ids 1, 2, 1 -- the third repeats a fingerprint,
forcing an early flush. -/
def c8wMsgs : List Msg :=
  [Msg.schema "t" (Jsn.obj [("properties", Jsn.obj
      [("id", Jsn.obj [("type", Jsn.arr [Jsn.str "integer"])])])]) ["id"],
   Msg.record "t" (Jsn.obj [("id", Jsn.num 1)]),
   Msg.record "t" (Jsn.obj [("id", Jsn.num 2)]),
   Msg.record "t" (Jsn.obj [("id", Jsn.num 1)])]

/-- The batch flushed by the duplicate in `c8wMsgs`. -/
def c8wBatch : Batch :=
  ⟨"t", ["id"], [Jsn.obj [("id", Jsn.num 1)], Jsn.obj [("id", Jsn.num 2)]]⟩

/-- The driver state after running `c8wMsgs` with batch size 1000. -/
def c8wFinal : DriverState :=
  ⟨Jsn.null,
   [("t", ⟨["id"], [("id", Jsn.obj [("type", Jsn.arr [Jsn.str "integer"])])],
     [Jsn.obj [("id", Jsn.num 1)]], 1, ["1"]⟩)],
   [c8wBatch]⟩


/-! ## Cached-state characterisation (claim C9) -/

/-- The cached-state recurrence of the amended claim C9: a STATE message
installs its value; a RECORD that is actually appended (non-falsy
payload) resets the cache to `null`; a skipped RECORD, a SCHEMA and an
ACTIVATE_VERSION leave it untouched. -/
def stateUpd (s : Jsn) (m : Msg) : Jsn :=
  match m with
  | Msg.state v => v
  | Msg.record _ r => if jsnFalsy r then s else Jsn.null
  | _ => s

/-- The cached state after a whole run, starting from `None`. -/
def cachedStateAfter (msgs : List Msg) : Jsn :=
  msgs.foldl stateUpd Jsn.null


/-! ## Claim theorems -/

/-- Claim C1 (confirmed).  The RECORD branch of `persist_lines` invokes
`record_primary_key_string` (line 95) and `record_to_csv_row` (line 102)
on the stream's `DbSync`, but the `DbSync` class of `db_sync.py` defines
neither method -- it defines `record_to_csv_line` instead -- so for a
registered stream and a non-empty record the branch stops with an
`AttributeError` at the first of those lookups and nothing is appended
to the batch buffer. -/
theorem c1_missing_methods :
    (dbSyncMethodNames.contains "record_primary_key_string") = false ∧
    (dbSyncMethodNames.contains "record_to_csv_row") = false ∧
    (dbSyncMethodNames.contains "record_to_csv_line") = true ∧
    ∀ record : Jsn, jsnFalsy record = false →
      processRecordActual true record =
        Except.error "AttributeError: DbSync object has no attribute record_primary_key_string" := by
  refine ⟨rfl, rfl, rfl, fun record h => ?_⟩
  unfold processRecordActual
  rw [h]
  rfl

/-- Witness for C1 at the concrete record `{"id": 1}`. -/
theorem c1_missing_methods_witness :
    jsnFalsy (Jsn.obj [("id", Jsn.num 1)]) = false ∧
    processRecordActual true (Jsn.obj [("id", Jsn.num 1)]) =
      Except.error "AttributeError: DbSync object has no attribute record_primary_key_string" :=
  ⟨rfl, c1_missing_methods.2.2.2 (Jsn.obj [("id", Jsn.num 1)]) rfl⟩

/-- Claim C4 (code bug).  `column_type` tests `integer` before falling
through to the string/default case and performs no most-general-type
reduction, so `{'type': ['integer', 'string']}` maps to `bigint`, not
`character varying` as the claim and the repository's own
`tests.py::test_column_type` require; `{'type': ['boolean', 'integer']}`
maps to `bigint` as claimed. -/
theorem c4_column_type_eval :
    column_type (Jsn.obj [("type", Jsn.arr [Jsn.str "integer", Jsn.str "string"])]) =
      Except.ok "bigint" ∧
    column_type (Jsn.obj [("type", Jsn.arr [Jsn.str "boolean", Jsn.str "integer"])]) =
      Except.ok "bigint" ∧
    "bigint" ≠ "character varying" :=
  ⟨rfl, rfl, by decide⟩

/-- Claim C5 (code bug).  `column_type` returns the spellings `JSONB`,
`timestamp`, `decimal`, `bigint`, `bool`, `varchar`; already on
`{'type': ['string']}` (and on `{'type': ['object']}`) its result is not
one of the six names the claim -- and the repository's own
`tests.py::test_column_type` -- enumerate. -/
theorem c5_column_type_names_eval :
    column_type (Jsn.obj [("type", Jsn.arr [Jsn.str "string"])]) = Except.ok "varchar" ∧
    (claimedSqlTypes.contains "varchar") = false ∧
    column_type (Jsn.obj [("type", Jsn.arr [Jsn.str "object"])]) = Except.ok "JSONB" ∧
    (claimedSqlTypes.contains "JSONB") = false :=
  ⟨rfl, rfl, rfl, rfl⟩

/-- Claim C6 (code bug).  The source `flatten_record` recurses into a
dict-valued field emitting only the children, so
`{custom_fields: {app: {value: "x"}}}` flattens to the single entry
`custom_fields__app__value`; the claim -- and the repository's own
`tests.py::test_flatten_record` -- require entries for `custom_fields`
and `custom_fields__app` as well. -/
theorem c6_flatten_record_eval :
    flatten_record (Jsn.obj [("custom_fields",
        Jsn.obj [("app", Jsn.obj [("value", Jsn.str "x")])])]) =
      Except.ok [("custom_fields__app__value", Jsn.str "x")] ∧
    lookupAssoc [(("custom_fields__app__value" : String), Jsn.str "x")] "custom_fields" = none ∧
    lookupAssoc [(("custom_fields__app__value" : String), Jsn.str "x")] "custom_fields__app" = none :=
  ⟨rfl, rfl, rfl⟩

/-- Claim C7 (code bug).  The source `flatten_record` starts with
`d.items()`, so every non-mapping input -- `None`, the string `'x'`, the
empty list -- raises `AttributeError` instead of returning the empty
mapping required by the claim and by the repository's own
`tests.py::test_flatten_record`. -/
theorem c7_flatten_record_nonmapping_eval :
    flatten_record Jsn.null =
      Except.error "AttributeError: object has no attribute items" ∧
    flatten_record (Jsn.str "x") =
      Except.error "AttributeError: object has no attribute items" ∧
    flatten_record (Jsn.arr []) =
      Except.error "AttributeError: object has no attribute items" :=
  ⟨rfl, rfl, rfl⟩

/-- Claim C10 (code bug).  `DbSync.table_name` uses its argument verbatim
-- no `inflection.underscore`, no space handling -- so with configured
schema `test_schema` it returns `TestTable_temp`, `test_schema.Test_table`
and `test_schema.test Table` where the claim and the repository's own
`tests.py::test_dbsync_table_name` require `test_table_temp`,
`test_schema.test_table` and `test_schema.test__table`. -/
theorem c10_table_name_eval :
    dbsyncKeyed.table_name "TestTable" true = "TestTable_temp" ∧
    dbsyncKeyed.table_name "Test_table" false = "test_schema.Test_table" ∧
    dbsyncKeyed.table_name "test Table" false = "test_schema.test Table" ∧
    "TestTable_temp" ≠ "test_table_temp" :=
  ⟨rfl, rfl, rfl, by decide⟩

/-- Claim C2, counterexample.  For stream `tests` with
`key_properties = ['id']`, the staging-table DDL produced by
`create_table_query(True)` -- the statement `load_csv` runs in step 1 of
the staging protocol -- does contain a `PRIMARY KEY` clause, contrary to
the claim that it never does. -/
theorem c2_temp_table_counterexample :
    DbSync.init "test_schema" "tests" ["id"] testSchemaJson = Except.ok dbsyncKeyed ∧
    dbsyncKeyed.create_table_query true =
      Except.ok "CREATE TEMP TABLE tests_temp (id bigint, name varchar, PRIMARY KEY (id))" ∧
    strContainsSub
      "CREATE TEMP TABLE tests_temp (id bigint, name varchar, PRIMARY KEY (id))"
      "PRIMARY KEY" = true :=
  ⟨rfl, rfl, rfl⟩

/-- Claim C2 as amended (corrected).  The staging table has the same
column list as the target table, but `create_table_query` appends the
`PRIMARY KEY` clause for temporary and permanent tables alike, so for a
stream with non-empty `key_properties` the two DDLs share the entire
parenthesised body -- identical column clauses followed by the same
`PRIMARY KEY (...)` clause -- and differ only in the `TEMP` keyword and
the table name. -/
theorem c2_temp_table_amended (d : DbSync) (cols : List String)
    (hc : d.flattenedSchema.mapM (fun p => column_clause p.1 p.2) = Except.ok cols)
    (hk : d.keyProperties ≠ []) :
    d.create_table_query true =
      Except.ok ("CREATE TEMP TABLE " ++ d.table_name d.stream true ++ " (" ++
        String.intercalate ", " (cols ++
          ["PRIMARY KEY (" ++ String.intercalate ", "
            (primary_column_names d.keyProperties) ++ ")"]) ++ ")") ∧
    d.create_table_query false =
      Except.ok ("CREATE TABLE " ++ d.table_name d.stream false ++ " (" ++
        String.intercalate ", " (cols ++
          ["PRIMARY KEY (" ++ String.intercalate ", "
            (primary_column_names d.keyProperties) ++ ")"]) ++ ")") := by
  obtain ⟨sn, stm, kp, fs⟩ := d
  cases kp with
  | nil => exact absurd rfl hk
  | cons a l =>
    simp only [DbSync.create_table_query] at *
    rw [hc]
    exact ⟨rfl, rfl⟩

/-- Witness for the amended C2 at the concrete keyed `DbSync`. -/
theorem c2_temp_table_amended_witness :
    dbsyncKeyed.create_table_query true =
      Except.ok ("CREATE TEMP TABLE " ++ dbsyncKeyed.table_name dbsyncKeyed.stream true ++ " (" ++
        String.intercalate ", " (["id bigint", "name varchar"] ++
          ["PRIMARY KEY (" ++ String.intercalate ", "
            (primary_column_names dbsyncKeyed.keyProperties) ++ ")"]) ++ ")") ∧
    dbsyncKeyed.create_table_query false =
      Except.ok ("CREATE TABLE " ++ dbsyncKeyed.table_name dbsyncKeyed.stream false ++ " (" ++
        String.intercalate ", " (["id bigint", "name varchar"] ++
          ["PRIMARY KEY (" ++ String.intercalate ", "
            (primary_column_names dbsyncKeyed.keyProperties) ++ ")"]) ++ ")") :=
  c2_temp_table_amended dbsyncKeyed ["id bigint", "name varchar"] rfl (by decide)

/-- Claim C3 (code bug).  For a stream with empty `key_properties`,
`load_csv` still executes the `UPDATE` statement and the anti-join
`INSERT`: the generated `UPDATE` carries an empty `WHERE` condition and
the `INSERT` keeps its `LEFT OUTER JOIN` with empty `ON` and `WHERE`
conditions -- malformed SQL rather than the skipped UPDATE and plain
append the claim describes. -/
theorem c3_load_csv_empty_keys_eval :
    DbSync.init "test_schema" "tests" [] testSchemaJson = Except.ok dbsyncNoKeys ∧
    dbsyncNoKeys.load_csv_statements = Except.ok [
      "CREATE TEMP TABLE tests_temp (id bigint, name varchar)",
      "COPY tests_temp (id, name) FROM STDIN WITH (FORMAT CSV, ESCAPE '\\')",
      "UPDATE test_schema.tests SET id=s.id, name=s.name FROM tests_temp s \n        WHERE \n        ",
      "INSERT INTO test_schema.tests (id, name) \n        (SELECT s.* FROM tests_temp s LEFT OUTER JOIN test_schema.tests t ON  WHERE )\n        ",
      "DROP TABLE tests_temp"] ∧
    strContainsSub dbsyncNoKeys.insert_from_temp_table "LEFT OUTER JOIN" = true :=
  ⟨rfl, rfl, rfl⟩

/-- Claim C9, counterexample.  On the input consisting of the single
message `STATE {"value": null}`, at least one STATE arrives after the
last RECORD (there is no RECORD at all), yet the driver writes nothing
at end of input: the cached state is Python `None` and `emit_state`
skips it. -/
theorem c9_state_null_counterexample :
    ([Msg.state Jsn.null].filter (fun m => match m with | Msg.state _ => true | _ => false)).length = 1 ∧
    ([Msg.state Jsn.null].filter (fun m => match m with | Msg.record _ _ => true | _ => false)).length = 0 ∧
    persist_lines 100000 [Msg.state Jsn.null] = Except.ok ⟨Jsn.null, [], []⟩ ∧
    emit_state (Jsn.null) = [] :=
  ⟨rfl, rfl, rfl, rfl⟩

theorem mem_updateAssoc {α : Type} (k : String) (v : α) (p : String × α) :
    ∀ l : List (String × α), p ∈ updateAssoc l k v → p = (k, v) ∨ p ∈ l := by
  intro l
  induction l with
  | nil =>
    intro hp
    simp only [updateAssoc, List.mem_singleton] at hp
    exact Or.inl hp
  | cons q rest ih =>
    intro hp
    obtain ⟨k1, w⟩ := q
    simp only [updateAssoc] at hp
    by_cases h : k1 = k
    · rw [if_pos h] at hp
      rcases List.mem_cons.mp hp with h1 | h1
      · exact Or.inl (by rw [h1, h])
      · exact Or.inr (List.mem_cons_of_mem _ h1)
    · rw [if_neg h] at hp
      rcases List.mem_cons.mp hp with h1 | h1
      · exact Or.inr (by rw [h1]; exact List.mem_cons_self _ _)
      · rcases ih h1 with h2 | h2
        · exact Or.inl h2
        · exact Or.inr (List.mem_cons_of_mem _ h2)

theorem nodupSnoc {α : Type} (l : List α) (a : α) (hl : l.Nodup) (ha : a ∉ l) :
    (l ++ [a]).Nodup := by
  simp [List.nodup_append, hl, ha]

/-- A freshly flushed buffer satisfies the stream invariant. -/
theorem streamInv_flush (stream : String) (ss : StreamState) (fl : List Batch) :
    streamInv (flush_records stream ss fl).1 := by
  constructor
  · intro s hs
    simp [flush_records, streamFingerprints] at hs
  · simp [flush_records, streamFingerprints]

/-- Flushing preserves all-batches-nodup, given the flushed buffer is
nodup. -/
theorem flush_records_batches (stream : String) (ss : StreamState) (fl : List Batch)
    (hfl : ∀ b ∈ fl, (batchFingerprints b).Nodup)
    (hss : (streamFingerprints ss).Nodup) :
    ∀ b ∈ (flush_records stream ss fl).2, (batchFingerprints b).Nodup := by
  intro b hb
  simp only [flush_records, List.mem_append, List.mem_singleton] at hb
  rcases hb with hb | hb
  · exact hfl b hb
  · subst hb
    exact hss

/-- Appending one record (recording its present fingerprint) preserves
the stream invariant, provided a present fingerprint is not already in
the seen-set. -/
theorem streamInv_append (record : Jsn) (ss1 : StreamState)
    (h1 : streamInv ss1)
    (hfresh : ∀ s, record_primary_key_string ss1.keyProperties record = some s → s ∉ ss1.seen) :
    streamInv (appendRow record ss1) := by
  cases hpk : record_primary_key_string ss1.keyProperties record with
  | none =>
    have hfps : streamFingerprints (appendRow record ss1) = streamFingerprints ss1 := by
      simp [streamFingerprints, appendRow, List.filterMap_append, List.filterMap_cons, hpk]
    constructor
    · intro s hs
      rw [hfps] at hs
      simp only [appendRow, hpk]
      exact h1.1 s hs
    · rw [hfps]
      exact h1.2
  | some s =>
    have hfps : streamFingerprints (appendRow record ss1) = streamFingerprints ss1 ++ [s] := by
      simp [streamFingerprints, appendRow, List.filterMap_append, List.filterMap_cons, hpk]
    constructor
    · intro x hx
      rw [hfps] at hx
      simp only [appendRow, hpk]
      rcases List.mem_append.mp hx with hx | hx
      · exact List.mem_append.mpr (Or.inl (h1.1 x hx))
      · exact List.mem_append.mpr (Or.inr hx)
    · rw [hfps]
      refine nodupSnoc _ _ h1.2 ?_
      intro hmem
      exact hfresh s hpk (h1.1 s hmem)

/-- After the (possibly flush-preceded) append, the optional batch-size
flush and the stream-registry update preserve the invariant. -/
theorem afterAppend (batchSize : Nat) (stream : String) (record : Jsn)
    (ss1 : StreamState) (fl1 : List Batch)
    (h1 : streamInv ss1)
    (hfl1 : ∀ b ∈ fl1, (batchFingerprints b).Nodup)
    (hfresh : ∀ s, record_primary_key_string ss1.keyProperties record = some s → s ∉ ss1.seen)
    (st : DriverState) :
    (∀ b ∈ (if (appendRow record ss1).rowCount ≥ batchSize
        then (flush_records stream (appendRow record ss1) fl1).2 else fl1),
      (batchFingerprints b).Nodup) ∧
    (∀ p ∈ updateAssoc st.streams stream
        (if (appendRow record ss1).rowCount ≥ batchSize
        then (flush_records stream (appendRow record ss1) fl1).1 else appendRow record ss1),
      streamInv p.2 ∨ p ∈ st.streams) := by
  have h2 := streamInv_append record ss1 h1 hfresh
  by_cases hsize : (appendRow record ss1).rowCount ≥ batchSize
  · rw [if_pos hsize, if_pos hsize]
    refine ⟨flush_records_batches _ _ _ hfl1 h2.2, ?_⟩
    intro p hp
    rcases mem_updateAssoc _ _ p _ hp with h | h
    · exact Or.inl (by rw [h]; exact streamInv_flush stream (appendRow record ss1) fl1)
    · exact Or.inr h
  · rw [if_neg hsize, if_neg hsize]
    refine ⟨hfl1, ?_⟩
    intro p hp
    rcases mem_updateAssoc _ _ p _ hp with h | h
    · exact Or.inl (by rw [h]; exact h2)
    · exact Or.inr h

/-- The record-append step preserves the invariant: every batch in the
updated flushed list is nodup and every registered stream either kept
its state or satisfies the stream invariant. -/
theorem recordAppendStep_inv (batchSize : Nat) (stream : String) (record : Jsn)
    (ss : StreamState) (st : DriverState)
    (hss : streamInv ss) (hfl : ∀ b ∈ st.flushed, (batchFingerprints b).Nodup) :
    (∀ b ∈ (recordAppendStep batchSize stream record ss st).flushed,
      (batchFingerprints b).Nodup) ∧
    (∀ p ∈ (recordAppendStep batchSize stream record ss st).streams,
      streamInv p.2 ∨ p ∈ st.streams) := by
  by_cases hdup : isDupFingerprint (record_primary_key_string ss.keyProperties record) ss.seen = true
  · simp only [recordAppendStep, hdup, if_true]
    have h1 : streamInv (flush_records stream ss st.flushed).1 := streamInv_flush stream ss st.flushed
    have hfl1 : ∀ b ∈ (flush_records stream ss st.flushed).2, (batchFingerprints b).Nodup :=
      flush_records_batches stream ss st.flushed hfl hss.2
    have hfresh : ∀ s, record_primary_key_string
        (flush_records stream ss st.flushed).1.keyProperties record = some s →
        s ∉ (flush_records stream ss st.flushed).1.seen := by
      intro s _ hmem
      simp [flush_records] at hmem
    exact afterAppend batchSize stream record _ _ h1 hfl1 hfresh st
  · rw [Bool.not_eq_true] at hdup
    simp only [recordAppendStep, hdup, Bool.false_eq_true, if_false]
    have hfresh : ∀ s, record_primary_key_string ss.keyProperties record = some s →
        s ∉ ss.seen := by
      intro s hs hmem
      rw [hs] at hdup
      simp [isDupFingerprint, hmem] at hdup
    exact afterAppend batchSize stream record ss st.flushed hss hfl hfresh st

theorem lookupAssoc_mem {α : Type} (k : String) (v : α) :
    ∀ l : List (String × α), lookupAssoc l k = some v → (k, v) ∈ l := by
  intro l
  induction l with
  | nil => intro h; simp [lookupAssoc] at h
  | cons q rest ih =>
    intro h
    obtain ⟨k1, w⟩ := q
    simp only [lookupAssoc] at h
    by_cases hk : k1 = k
    · rw [if_pos hk] at h
      injection h with h2
      subst h2
      subst hk
      exact List.mem_cons_self _ _
    · rw [if_neg hk] at h
      exact List.mem_cons_of_mem _ (ih h)

/-- Every step of the driver loop preserves the deduplication
invariant. -/
theorem stepMsg_inv (batchSize : Nat) (st st' : DriverState) (m : Msg)
    (h : stepMsg batchSize st m = Except.ok st') (hinv : driverInv st) : driverInv st' := by
  cases m with
  | state v =>
    have h' : Except.ok { st with state := v } = Except.ok st' := h
    injection h' with h2
    subst h2
    exact ⟨hinv.1, hinv.2⟩
  | activateVersion =>
    have h' : Except.ok st = Except.ok st' := h
    injection h' with h2
    subst h2
    exact hinv
  | schema stream schemaJson keyProps =>
    simp only [stepMsg] at h
    cases hl : lookupAssoc st.streams stream with
    | some ss =>
      rw [hl] at h
      have h' : Except.ok st = Except.ok st' := h
      injection h' with h2
      subst h2
      exact hinv
    | none =>
      rw [hl] at h
      cases hf : flatten_schema schemaJson with
      | error e =>
        rw [hf] at h
        exact Except.noConfusion h
      | ok flat =>
        rw [hf] at h
        have h' : Except.ok
            { st with streams := updateAssoc st.streams stream ⟨keyProps, flat, [], 0, []⟩ } =
            Except.ok st' := h
        injection h' with h2
        subst h2
        constructor
        · intro p hp
          rcases mem_updateAssoc _ _ p _ hp with h3 | h3
          · rw [h3]
            exact ⟨by intro s hs; simp [streamFingerprints] at hs, by simp [streamFingerprints]⟩
          · exact hinv.1 p h3
        · exact hinv.2
  | record stream record =>
    simp only [stepMsg] at h
    cases hl : lookupAssoc st.streams stream with
    | none =>
      rw [hl] at h
      exact Except.noConfusion h
    | some ss =>
      rw [hl] at h
      have h' : (if jsnFalsy record = true then Except.ok st
          else Except.ok (recordAppendStep batchSize stream record ss st)) = Except.ok st' := h
      by_cases hfr : jsnFalsy record = true
      · rw [if_pos hfr] at h'
        injection h' with h2
        subst h2
        exact hinv
      · rw [if_neg hfr] at h'
        injection h' with h2
        subst h2
        have hmem : (stream, ss) ∈ st.streams := lookupAssoc_mem _ _ _ hl
        have hss : streamInv ss := hinv.1 (stream, ss) hmem
        have hres := recordAppendStep_inv batchSize stream record ss st hss hinv.2
        refine ⟨?_, hres.1⟩
        intro p hp
        rcases hres.2 p hp with h3 | h3
        · exact h3
        · exact hinv.1 p h3

/-- The deduplication invariant holds at the end of every successful
run of the message loop. -/
theorem persistLines_inv (batchSize : Nat) :
    ∀ (msgs : List Msg) (st0 st' : DriverState),
      List.foldlM (stepMsg batchSize) st0 msgs = Except.ok st' → driverInv st0 → driverInv st' := by
  intro msgs
  induction msgs with
  | nil =>
    intro st0 st' h h0
    have h' : Except.ok st0 = Except.ok st' := h
    injection h' with h2
    subst h2
    exact h0
  | cons m rest ih =>
    intro st0 st' h h0
    have h' : (stepMsg batchSize st0 m >>= fun st1 =>
        List.foldlM (stepMsg batchSize) st1 rest) = Except.ok st' := h
    cases hm : stepMsg batchSize st0 m with
    | error e =>
      rw [hm] at h'
      exact Except.noConfusion h'
    | ok st1 =>
      rw [hm] at h'
      have h2 : List.foldlM (stepMsg batchSize) st1 rest = Except.ok st' := h'
      exact ih st1 st' h2 (stepMsg_inv batchSize st0 st1 m hm h0)

/-- Claim C8 (confirmed; the fingerprinting method is spec-modelled, see
`record_primary_key_string`).  For every input sequence, every batch
size and every batch the run hands to the merger -- the batches flushed
on a duplicate fingerprint or on reaching `batch_size`, and the
end-of-input drains -- no two rows of the batch share a present
fingerprint: the driver flushes before appending a record whose
fingerprint is already in the stream's seen-set, and every flush resets
the row count and empties the seen-set. -/
theorem c8_batch_dedup (batchSize : Nat) (msgs : List Msg) (st : DriverState)
    (h : persist_lines batchSize msgs = Except.ok st) (b : Batch)
    (hb : b ∈ finalBatches st) :
    (batchFingerprints b).Nodup := by
  have hinv : driverInv st :=
    persistLines_inv batchSize msgs ⟨Jsn.null, [], []⟩ st h
      ⟨by intro p hp; exact absurd hp (List.not_mem_nil p),
       by intro b2 hb2; exact absurd hb2 (List.not_mem_nil b2)⟩
  simp only [finalBatches] at hb
  rcases List.mem_append.mp hb with hfl | hcur
  · exact hinv.2 b hfl
  · rcases List.mem_filterMap.mp hcur with ⟨p, hp, hpb⟩
    by_cases hc : p.2.rowCount > 0
    · rw [if_pos hc] at hpb
      injection hpb with h2
      subst h2
      exact (hinv.1 p hp).2
    · rw [if_neg hc] at hpb
      exact Option.noConfusion hpb

/-- Witness for C8: the concrete run of `c8wMsgs` succeeds, flushes
`c8wBatch`, and the theorem yields its fingerprint distinctness. -/
theorem c8_batch_dedup_witness : (batchFingerprints c8wBatch).Nodup := by
  have h : persist_lines 1000 c8wMsgs = Except.ok c8wFinal := rfl
  have hb : c8wBatch ∈ finalBatches c8wFinal := by
    have he : finalBatches c8wFinal =
        [c8wBatch, ⟨"t", ["id"], [Jsn.obj [("id", Jsn.num 1)]]⟩] := rfl
    rw [he]
    exact List.mem_cons_self _ _
  exact c8_batch_dedup 1000 c8wMsgs c8wFinal h c8wBatch hb

theorem stepMsg_state (batchSize : Nat) (st st' : DriverState) (m : Msg)
    (h : stepMsg batchSize st m = Except.ok st') : st'.state = stateUpd st.state m := by
  cases m with
  | state v =>
    have h' : Except.ok { st with state := v } = Except.ok st' := h
    injection h' with h2
    subst h2
    rfl
  | activateVersion =>
    have h' : Except.ok st = Except.ok st' := h
    injection h' with h2
    subst h2
    rfl
  | schema stream schemaJson keyProps =>
    simp only [stepMsg] at h
    cases hl : lookupAssoc st.streams stream with
    | some ss =>
      rw [hl] at h
      have h' : Except.ok st = Except.ok st' := h
      injection h' with h2
      subst h2
      rfl
    | none =>
      rw [hl] at h
      cases hf : flatten_schema schemaJson with
      | error e =>
        rw [hf] at h
        exact Except.noConfusion h
      | ok flat =>
        rw [hf] at h
        have h' : Except.ok
            { st with streams := updateAssoc st.streams stream ⟨keyProps, flat, [], 0, []⟩ } =
            Except.ok st' := h
        injection h' with h2
        subst h2
        rfl
  | record stream record =>
    simp only [stepMsg] at h
    cases hl : lookupAssoc st.streams stream with
    | none =>
      rw [hl] at h
      exact Except.noConfusion h
    | some ss =>
      rw [hl] at h
      have h' : (if jsnFalsy record = true then Except.ok st
          else Except.ok (recordAppendStep batchSize stream record ss st)) = Except.ok st' := h
      by_cases hfr : jsnFalsy record = true
      · rw [if_pos hfr] at h'
        injection h' with h2
        subst h2
        simp [stateUpd, hfr]
      · rw [if_neg hfr] at h'
        injection h' with h2
        subst h2
        rw [Bool.not_eq_true] at hfr
        simp [stateUpd, hfr, recordAppendStep]

theorem persistLines_state (batchSize : Nat) :
    ∀ (msgs : List Msg) (st0 st' : DriverState),
      List.foldlM (stepMsg batchSize) st0 msgs = Except.ok st' →
      st'.state = msgs.foldl stateUpd st0.state := by
  intro msgs
  induction msgs with
  | nil =>
    intro st0 st' h
    have h' : Except.ok st0 = Except.ok st' := h
    injection h' with h2
    subst h2
    rfl
  | cons m rest ih =>
    intro st0 st' h
    have h' : (stepMsg batchSize st0 m >>= fun st1 =>
        List.foldlM (stepMsg batchSize) st1 rest) = Except.ok st' := h
    cases hm : stepMsg batchSize st0 m with
    | error e =>
      rw [hm] at h'
      exact Except.noConfusion h'
    | ok st1 =>
      rw [hm] at h'
      have h2 : List.foldlM (stepMsg batchSize) st1 rest = Except.ok st' := h'
      rw [List.foldl_cons, ← stepMsg_state batchSize st0 st1 m hm]
      exact ih st1 st' h2

/-- `emit_state` writes a line exactly for a non-null cached state. -/
theorem emit_state_ne_nil (v : Jsn) : emit_state v ≠ [] ↔ v ≠ Jsn.null := by
  cases v <;> simp [emit_state]

/-- Claim C9 as amended (corrected; the driver model spec-models the
missing fingerprinting method, see `record_primary_key_string`).
Processing a RECORD message with a non-empty payload resets the cached
STATE to `null` (a skipped empty record leaves it untouched), and at end
of input the driver writes the cached state -- the value of the last
STATE message, unless a non-skipped RECORD followed it -- as a single
JSON line followed by a newline if and only if that value is not
`null`.  In particular a last STATE whose value is `null` produces no
checkpoint line. -/
theorem c9_checkpoint_amended (batchSize : Nat) (msgs : List Msg) (st : DriverState)
    (h : persist_lines batchSize msgs = Except.ok st) :
    st.state = cachedStateAfter msgs ∧
    (emit_state st.state ≠ [] ↔ cachedStateAfter msgs ≠ Jsn.null) := by
  have h1 : st.state = cachedStateAfter msgs :=
    persistLines_state batchSize msgs ⟨Jsn.null, [], []⟩ st h
  refine ⟨h1, ?_⟩
  rw [h1]
  exact emit_state_ne_nil (cachedStateAfter msgs)

/-- Witness for the amended C9 at the input `[STATE 5]`. -/
theorem c9_checkpoint_amended_witness :
    (⟨Jsn.num 5, [], []⟩ : DriverState).state = cachedStateAfter [Msg.state (Jsn.num 5)] ∧
    (emit_state (⟨Jsn.num 5, [], []⟩ : DriverState).state ≠ [] ↔
      cachedStateAfter [Msg.state (Jsn.num 5)] ≠ Jsn.null) :=
  c9_checkpoint_amended 100000 [Msg.state (Jsn.num 5)] ⟨Jsn.num 5, [], []⟩ rfl
